import Mathlib

/-!
Shallow embedding of `llama_cpp_openai` (files
`_llama_2_functionary_chat_handler.py` and `_api_server.py`) for checking
the natural-language specification against the code.

The embedding models Python values that the handler manipulates:
JSON values (as produced by `json.loads` and consumed by `json.dumps`),
chat request messages, tool declarations, inference-collaborator
completions, and the handler's response envelope.  Python exceptions that
can escape the embedded functions are modelled with the `PyError` type and
`Except`.
-/

/-- JSON values, as produced by Python's `json.loads`.
Numbers are modelled as integers only: the repository never generates or
consumes fractional JSON numbers, and every claim is settled on integer or
number-free documents, so `loads` is modelled to fail on a fractional or
exponent-bearing literal. -/
inductive Json where
  | null : Json
  | bool (b : Bool) : Json
  | num (n : Int) : Json
  | str (s : String) : Json
  | arr (elems : List Json) : Json
  | obj (members : List (String × Json)) : Json

/-- Hexadecimal digit character for a value below 16 (lowercase, as printed
by Python's `json.dumps` unicode escapes). -/
def hexDigitChar (n : Nat) : Char :=
  if n < 10 then Char.ofNat (48 + n) else Char.ofNat (87 + n)

/-- `\uXXXX` escape used by `json.dumps(ensure_ascii=True)`. -/
def uEscape (n : Nat) : String :=
  "\\u" ++ String.mk [hexDigitChar (n / 4096 % 16), hexDigitChar (n / 256 % 16),
    hexDigitChar (n / 16 % 16), hexDigitChar (n % 16)]

/-- Escape a single character the way Python's `json.dumps` does with its
default `ensure_ascii=True`. -/
def escapeChar (c : Char) : String :=
  if c = '"' then "\\\""
  else if c = '\\' then "\\\\"
  else if c = '\n' then "\\n"
  else if c = '\r' then "\\r"
  else if c = '\t' then "\\t"
  else if c.toNat = 8 then "\\b"
  else if c.toNat = 12 then "\\f"
  else if c.toNat < 32 then uEscape c.toNat
  else if c.toNat < 127 then String.mk [c]
  else if c.toNat < 65536 then uEscape c.toNat
  else
    let v := c.toNat - 65536
    uEscape (55296 + v / 1024) ++ uEscape (56320 + v % 1024)

/-- A JSON string literal: quoted and escaped as by `json.dumps`. -/
def quoteStr (s : String) : String :=
  "\"" ++ String.join (s.data.map escapeChar) ++ "\""

mutual

/-- Python `json.dumps(v)` with default separators `(', ', ': ')` and no
indent. -/
def dumpJson : Json → String
  | .null => "null"
  | .bool true => "true"
  | .bool false => "false"
  | .num n => toString n
  | .str s => quoteStr s
  | .arr es => "[" ++ dumpJsonElems es ++ "]"
  | .obj ms => "\x7b" ++ dumpJsonMembers ms ++ "\x7d"

/-- Array elements of `dumpJson`, separated by `", "`. -/
def dumpJsonElems : List Json → String
  | [] => ""
  | [j] => dumpJson j
  | j :: rest => dumpJson j ++ ", " ++ dumpJsonElems rest

/-- Object members of `dumpJson`, separated by `", "` with key separator
`": "`. -/
def dumpJsonMembers : List (String × Json) → String
  | [] => ""
  | [(k, v)] => quoteStr k ++ ": " ++ dumpJson v
  | (k, v) :: rest => quoteStr k ++ ": " ++ dumpJson v ++ ", " ++ dumpJsonMembers rest

end

/-- A run of `n` spaces, used for indented JSON output. -/
def spaces (n : Nat) : String := String.mk (List.replicate n ' ')

mutual

/-- Python `json.dumps(v, indent=ind)` rendered at nesting depth `depth`:
item separator `",\n" + pad`, key separator `": "`, empty containers kept
on one line. -/
def dumpJsonIndent (ind depth : Nat) : Json → String
  | .null => "null"
  | .bool true => "true"
  | .bool false => "false"
  | .num n => toString n
  | .str s => quoteStr s
  | .arr [] => "[]"
  | .arr (j :: rest) =>
      "[\n" ++ spaces (ind * (depth + 1)) ++ dumpJsonIndentElems ind (depth + 1) (j :: rest) ++
        "\n" ++ spaces (ind * depth) ++ "]"
  | .obj [] => "\x7b\x7d"
  | .obj (m :: rest) =>
      "\x7b\n" ++ spaces (ind * (depth + 1)) ++ dumpJsonIndentMembers ind (depth + 1) (m :: rest) ++
        "\n" ++ spaces (ind * depth) ++ "\x7d"

/-- Array elements of `dumpJsonIndent`. -/
def dumpJsonIndentElems (ind depth : Nat) : List Json → String
  | [] => ""
  | [j] => dumpJsonIndent ind depth j
  | j :: rest =>
      dumpJsonIndent ind depth j ++ ",\n" ++ spaces (ind * depth) ++
        dumpJsonIndentElems ind depth rest

/-- Object members of `dumpJsonIndent`. -/
def dumpJsonIndentMembers (ind depth : Nat) : List (String × Json) → String
  | [] => ""
  | [(k, v)] => quoteStr k ++ ": " ++ dumpJsonIndent ind depth v
  | (k, v) :: rest =>
      quoteStr k ++ ": " ++ dumpJsonIndent ind depth v ++ ",\n" ++ spaces (ind * depth) ++
        dumpJsonIndentMembers ind depth rest

end

/-- JSON whitespace accepted by Python's strict `json.loads`. -/
def isJsonWs (c : Char) : Bool :=
  c = ' ' || c = '\t' || c = '\n' || c = '\r'

/-- Drop leading JSON whitespace. -/
def skipWs : List Char → List Char
  | [] => []
  | c :: cs => if isJsonWs c then skipWs cs else c :: cs

/-- Value of a hexadecimal digit character, if it is one. -/
def hexVal (c : Char) : Option Nat :=
  if '0' ≤ c ∧ c ≤ '9' then some (c.toNat - 48)
  else if 'a' ≤ c ∧ c ≤ 'f' then some (c.toNat - 87)
  else if 'A' ≤ c ∧ c ≤ 'F' then some (c.toNat - 55)
  else none

/-- Body of a JSON string literal (after the opening quote): accumulates
decoded characters (reversed) and returns the string together with the
input remaining after the closing quote.  Rejects raw control characters
(strict mode) and, as a model restriction, lone surrogate escapes (which
Lean's `Char` cannot carry). -/
def parseStringChars : List Char → List Char → Option (String × List Char)
  | acc, '"' :: cs => some (String.mk acc.reverse, cs)
  | acc, '\\' :: '"' :: cs => parseStringChars ('"' :: acc) cs
  | acc, '\\' :: '\\' :: cs => parseStringChars ('\\' :: acc) cs
  | acc, '\\' :: '/' :: cs => parseStringChars ('/' :: acc) cs
  | acc, '\\' :: 'b' :: cs => parseStringChars (Char.ofNat 8 :: acc) cs
  | acc, '\\' :: 'f' :: cs => parseStringChars (Char.ofNat 12 :: acc) cs
  | acc, '\\' :: 'n' :: cs => parseStringChars ('\n' :: acc) cs
  | acc, '\\' :: 'r' :: cs => parseStringChars ('\r' :: acc) cs
  | acc, '\\' :: 't' :: cs => parseStringChars ('\t' :: acc) cs
  | acc, '\\' :: 'u' :: h1 :: h2 :: h3 :: h4 :: cs =>
    match hexVal h1, hexVal h2, hexVal h3, hexVal h4 with
    | some a, some b, some c, some d =>
      let n := a * 4096 + b * 256 + c * 16 + d
      if 55296 ≤ n ∧ n ≤ 56319 then
        match cs with
        | '\\' :: 'u' :: g1 :: g2 :: g3 :: g4 :: cs2 =>
          match hexVal g1, hexVal g2, hexVal g3, hexVal g4 with
          | some a2, some b2, some c2, some d2 =>
            let m := a2 * 4096 + b2 * 256 + c2 * 16 + d2
            if 56320 ≤ m ∧ m ≤ 57343 then
              parseStringChars
                (Char.ofNat (65536 + (n - 55296) * 1024 + (m - 56320)) :: acc) cs2
            else none
          | _, _, _, _ => none
        | _ => none
      else if 56320 ≤ n ∧ n ≤ 57343 then none
      else parseStringChars (Char.ofNat n :: acc) cs
    | _, _, _, _ => none
  | _, '\\' :: _ => none
  | acc, c :: cs => if c.toNat < 32 then none else parseStringChars (c :: acc) cs
  | _, [] => none

/-- Integer value of a digit run. -/
def digitsVal (ds : List Char) : Int :=
  ds.foldl (fun a c => a * 10 + (Int.ofNat c.toNat - 48)) 0

/-- A JSON number literal.  Integral numbers only (see `Json`); a literal
continuing with `.`, `e` or `E` fails in this model. -/
def parseNumber (cs : List Char) : Option (Json × List Char) :=
  let (neg, cs1) := match cs with
    | '-' :: rest => (true, rest)
    | _ => (false, cs)
  let ds := cs1.takeWhile (·.isDigit)
  let rest := cs1.dropWhile (·.isDigit)
  if ds.isEmpty then none
  else if 1 < ds.length ∧ ds.headD ' ' = '0' then none
  else
    match rest with
    | '.' :: _ => none
    | 'e' :: _ => none
    | 'E' :: _ => none
    | _ => some (.num (if neg then -digitsVal ds else digitsVal ds), rest)

mutual

/-- One JSON value, fuelled recursive descent mirroring Python's strict
`json.loads` grammar (minus fractional numbers, see `Json`). -/
def parseValue : Nat → List Char → Option (Json × List Char)
  | 0, _ => none
  | fuel + 1, cs =>
    match skipWs cs with
    | 'n' :: 'u' :: 'l' :: 'l' :: rest => some (.null, rest)
    | 't' :: 'r' :: 'u' :: 'e' :: rest => some (.bool true, rest)
    | 'f' :: 'a' :: 'l' :: 's' :: 'e' :: rest => some (.bool false, rest)
    | '"' :: rest => (parseStringChars [] rest).map fun p => (.str p.1, p.2)
    | '[' :: rest =>
      match skipWs rest with
      | ']' :: r2 => some (.arr [], r2)
      | r2 => (parseElems fuel r2).map fun p => (.arr p.1, p.2)
    | '{' :: rest =>
      match skipWs rest with
      | '}' :: r2 => some (.obj [], r2)
      | r2 => (parseMembers fuel r2).map fun p => (.obj p.1, p.2)
    | rest => parseNumber rest

/-- Non-empty comma-separated array elements up to the closing `]`. -/
def parseElems : Nat → List Char → Option (List Json × List Char)
  | 0, _ => none
  | fuel + 1, cs =>
    match parseValue fuel cs with
    | none => none
    | some (j, rest) =>
      match skipWs rest with
      | ',' :: r2 => (parseElems fuel r2).map fun p => (j :: p.1, p.2)
      | ']' :: r2 => some ([j], r2)
      | _ => none

/-- Non-empty comma-separated object members up to the closing `}`. -/
def parseMembers : Nat → List Char → Option (List (String × Json) × List Char)
  | 0, _ => none
  | fuel + 1, cs =>
    match skipWs cs with
    | '"' :: rest =>
      match parseStringChars [] rest with
      | none => none
      | some (k, r1) =>
        match skipWs r1 with
        | ':' :: r2 =>
          match parseValue fuel r2 with
          | none => none
          | some (v, r3) =>
            match skipWs r3 with
            | ',' :: r4 => (parseMembers fuel r4).map fun p => ((k, v) :: p.1, p.2)
            | '}' :: r4 => some ([(k, v)], r4)
            | _ => none
        | _ => none
    | _ => none

end

/-- Python `json.loads`: parse one document, then require only trailing
whitespace.  `none` models a raised `json.JSONDecodeError`. -/
def loads (s : String) : Option Json :=
  match parseValue (2 * s.length + 2) s.data with
  | some (j, rest) => if (skipWs rest).isEmpty then some j else none
  | none => none

/-- Subscripting a decoded JSON object like a Python dict: on duplicate
keys the last occurrence wins (as `json.loads` builds its dict). -/
def lookupDict (members : List (String × Json)) (key : String) : Option Json :=
  (members.reverse.find? fun m => m.1 = key).map fun m => m.2

/-!
## Chat handler (`_llama_2_functionary_chat_handler.py`)
-/

/-- Python exceptions that can escape the embedded handler code. -/
inductive PyError where
  | valueError (msg : String)
  | jsonDecodeError
  | keyError (key : String)
  | typeError
  | indexError
  | assertionError (msg : String)
deriving Repr, DecidableEq

/-- `f"...{x}..."` interpolation of a value that may be Python `None`. -/
def pyStrOpt : Option String → String
  | none => "None"
  | some s => s

/-- The `function` member of a request-side tool call or the legacy
`function_call` member of an assistant message: `{name, arguments}` with
`arguments` a JSON-encoded string. -/
structure RequestFunctionCall where
  name : String
  arguments : String
deriving Repr, DecidableEq

/-- One element of an assistant request message's `tool_calls` list; the
handler only reads its `function` member. -/
structure RequestToolCall where
  function : RequestFunctionCall
deriving Repr, DecidableEq

/-- A chat request message as the handler receives it (a dict).  `none` in
`tool_calls` / `function_call` models the key being absent. -/
structure Message where
  role : String
  content : Option String
  tool_calls : Option (List RequestToolCall) := none
  function_call : Option RequestFunctionCall := none
deriving Repr, DecidableEq

/-- One property of a tool function's parameters: its declared name and
`type` string, in declaration order within the `properties` mapping. -/
structure ToolFunctionProperty where
  name : String
  type : String
deriving Repr, DecidableEq

/-- The `function` member of a tool declaration. -/
structure ToolFunction where
  name : String
  description : String
  parameters_properties : List ToolFunctionProperty
  parameters_required : List String
deriving Repr, DecidableEq

/-- A tool declaration as passed in the `tools` list. -/
structure Tool where
  function : ToolFunction
deriving Repr, DecidableEq

/-- The projection of one tool into the Trelis wire shape
`{function, description, arguments: [{name, type}]}` built by
`_format_tools` (`trelis_tools` list comprehension, lines 62-69). -/
def trelisTool (t : Tool) : Json :=
  .obj [("function", .str t.function.name),
        ("description", .str t.function.description),
        ("arguments", .arr (t.function.parameters_properties.map fun p =>
          .obj [("name", .str p.name), ("type", .str p.type)]))]

/-- `_format_tools` (lines 54-71): empty or absent tools give `""`,
otherwise `"<FUNCTIONS>" + json.dumps(trelis_tools, indent=4) +
"</FUNCTIONS>\n\n"`. -/
def format_tools (tools : Option (List Tool)) : String :=
  match tools with
  | none => ""
  | some ts =>
    if ts.length = 0 then ""
    else "<FUNCTIONS>" ++ dumpJsonIndent 4 0 (.arr (ts.map trelisTool)) ++ "</FUNCTIONS>\n\n"

/-- `_format_function_call` (lines 106-110):
`json.dumps({"function": name, "arguments": json.loads(arguments)})`.
A `json.loads` failure on the arguments string escapes as
`JSONDecodeError`. -/
def format_function_call (fc : RequestFunctionCall) : Except PyError String :=
  match loads fc.arguments with
  | none => .error .jsonDecodeError
  | some args => .ok (dumpJson (.obj [("function", .str fc.name), ("arguments", args)]))

/-- `_format_message_content` (lines 105-118).  The result is the value
stored into the accumulator slot; it is `none` exactly when the Python
expression evaluates to `None` (a plain message with `content` absent). -/
def format_message_content (m : Message) : Except PyError (Option String) :=
  if m.role = "assistant" then
    match m.tool_calls with
    | some [] => .error .indexError
    | some (tc :: _) => (format_function_call tc.function).map some
    | none =>
      match m.function_call with
      | some fc => (format_function_call fc).map some
      | none => .ok m.content
  else if m.role = "function" then
    .ok (some ("Here is the response to that function call:\n\n\"" ++ pyStrOpt m.content ++ "\""))
  else
    .ok m.content

/-- The three-slot accumulator `state` of `_format_messages`
(lines 76-82). -/
structure ConvState where
  user : Option String
  system : Option String
  assistant : Option String
deriving Repr, DecidableEq

/-- `_reset_state` (lines 76-82): all three slots `None`. -/
def reset_state : ConvState := ⟨none, none, none⟩

/-- The accumulator slot targeted by a push. -/
inductive Slot where
  | user
  | system
  | assistant
deriving Repr, DecidableEq

/-- `state[role]` for a slot name. -/
def ConvState.get : ConvState → Slot → Option String
  | st, .user => st.user
  | st, .system => st.system
  | st, .assistant => st.assistant

/-- Store into one slot. -/
def ConvState.set : ConvState → Slot → Option String → ConvState
  | st, .user, v => { st with user := v }
  | st, .system, v => { st with system := v }
  | st, .assistant, v => { st with assistant := v }

/-- The block rendered by `_push_state` (lines 91-100) from the current
accumulator state. -/
def renderBlock (st : ConvState) : String :=
  let system :=
    match st.system with
    | some s => "<<SYS>>\n" ++ s ++ "\n<</SYS>>\n\n"
    | none => ""
  let prompt :=
    match st.user with
    | some u => "[INST] " ++ system ++ u ++ " [/INST]"
    | none => ""
  match st.assistant with
  | some a => "<s>" ++ prompt ++ " " ++ a ++ "</s>"
  | none => prompt

/-- `_push_state` (lines 84-103): no-op when the targeted slot is empty
(`role` is `some` and `state[role] is None`) or when all slots are empty;
otherwise append the rendered block and reset.  `role = none` is the
unconditional final push. -/
def push_state (st : ConvState) (lines : List String) (role : Option Slot) :
    ConvState × List String :=
  if (match role with | some r => (st.get r).isNone | none => false) then (st, lines)
  else if st = reset_state then (st, lines)
  else (reset_state, lines ++ [renderBlock st])

/-- The message loop of `_format_messages` (lines 120-137): dispatch on
the role, push into the targeted slot, store the formatted content; the
final iteration performs `_push_state(role=None)`.  Unknown roles raise
`ValueError(f"Unknown role: {role}")`; content-formatting errors
propagate. -/
def format_loop : ConvState → List String → List Message → Except PyError (List String)
  | st, lines, [] => .ok (push_state st lines none).2
  | st, lines, m :: ms =>
    if m.role = "user" ∨ m.role = "function" then
      let p := push_state st lines (some .user)
      match format_message_content m with
      | .error e => .error e
      | .ok c => format_loop (p.1.set .user c) p.2 ms
    else if m.role = "system" then
      let p := push_state st lines (some .system)
      match format_message_content m with
      | .error e => .error e
      | .ok c => format_loop (p.1.set .system c) p.2 ms
    else if m.role = "assistant" then
      let p := push_state st lines (some .assistant)
      match format_message_content m with
      | .error e => .error e
      | .ok c => format_loop (p.1.set .assistant c) p.2 ms
    else
      .error (.valueError ("Unknown role: " ++ m.role))

/-- `_format_messages` (lines 73-139): run the loop from an empty
accumulator and join the emitted blocks with `"\n"`. -/
def format_messages (messages : List Message) : Except PyError String :=
  (format_loop reset_state [] messages).map (String.intercalate "\n")

/-- Line 141: `prompt = _format_tools(messages, functions, tools) +
_format_messages(messages)`. -/
def compile_prompt (messages : List Message) (tools : Option (List Tool)) :
    Except PyError String :=
  (format_messages messages).map fun body => format_tools tools ++ body

/-- Token-usage statistics of an inference result, passed through to the
response envelope. -/
structure CompletionUsage where
  prompt_tokens : Nat
  completion_tokens : Nat
  total_tokens : Nat
deriving Repr, DecidableEq

/-- One element of an inference result's `choices` list. -/
structure CompletionChoice where
  text : String
deriving Repr, DecidableEq

/-- The inference collaborator's completion result
(`llama.create_completion` return value, as read by the handler). -/
structure Completion where
  id : String
  created : Int
  model : String
  choices : List CompletionChoice
  usage : CompletionUsage
deriving Repr, DecidableEq

/-- The `function` member of a response tool call.  Its `name` is the raw
decoded JSON value `function_call["function"]` (the code never checks it
is a string). -/
structure ResponseToolCallFunction where
  name : Json
  arguments : String

/-- One response tool call `{"id", "type", "function"}` built by
`_parse_tool_calls`. -/
structure ResponseToolCall where
  id : Json
  type : String
  function : ResponseToolCallFunction

/-- `_parse_tool_calls` (lines 166-179).  Only `json.JSONDecodeError` is
caught (giving `None`, modelled `.ok none`); subscripting a decoded
non-dict raises `TypeError` and a dict missing `"function"` or
`"arguments"` raises `KeyError`, and both escape. -/
def parse_tool_calls (completion : Completion) : Except PyError (Option (List ResponseToolCall)) :=
  match completion.choices with
  | [] => .error .indexError
  | choice :: _ =>
    match loads choice.text with
    | none => .ok none
    | some (.obj members) =>
      match lookupDict members "function" with
      | none => .error (.keyError "function")
      | some f =>
        match lookupDict members "arguments" with
        | none => .error (.keyError "arguments")
        | some args =>
          .ok (some [{ id := f, type := "function",
                       function := { name := f, arguments := dumpJsonIndent 2 0 args } }])
    | some _ => .error .typeError

/-- The assistant message assembled by the handler (lines 181-191):
`content` is `None` with populated `tool_calls`/`function_call` on the
function-call path, or the raw completion text with both absent on the
plain path. -/
structure AssistantMessage where
  role : String
  content : Option String
  tool_calls : Option (List ResponseToolCall)
  function_call : Option ResponseToolCallFunction

/-- Message assembly (lines 181-191). -/
def build_message (completion : Completion) : Except PyError AssistantMessage :=
  match parse_tool_calls completion with
  | .error e => .error e
  | .ok (some (tc :: tcs)) =>
    .ok { role := "assistant", content := none, tool_calls := some (tc :: tcs),
          function_call := some tc.function }
  | .ok (some []) => .error .indexError
  | .ok none =>
    match completion.choices with
    | [] => .error .indexError
    | choice :: _ =>
      .ok { role := "assistant", content := some choice.text, tool_calls := none,
            function_call := none }

/-- One choice of the response envelope. -/
structure ResponseChoice where
  index : Nat
  message : AssistantMessage
  finish_reason : String

/-- The `CreateChatCompletionResponse` envelope (lines 193-204). -/
structure ChatResponse where
  id : String
  object : String
  created : Int
  model : String
  choices : List ResponseChoice
  usage : CompletionUsage

/-- Envelope assembly (lines 193-204). -/
def build_response (completion : Completion) : Except PyError ChatResponse :=
  (build_message completion).map fun msg =>
    { id := "chat" ++ completion.id, object := "chat.completion",
      created := completion.created, model := completion.model,
      choices := [{ index := 0, message := msg, finish_reason := "stop" }],
      usage := completion.usage }

/-- Arguments of one `llama.create_completion` call as issued by the
handler (lines 144-164): the prompt, the hard-coded stop sequences, the
literal `stream=False`, and the forwarded sampling parameters (an opaque
bundle `α`, passed through unchanged). -/
structure CallArgs (α : Type) where
  prompt : String
  stop : List String
  stream : Bool
  params : α

/-- `llama2_functary_chat_completion_handler` (lines 54-204), instrumented
with the list of calls made to the inference collaborator
`create_completion`.  `stop` is the caller-supplied stop argument
(line 20), which the body never reads; the collaborator always receives
the literal `["user:", "</s>"]` (line 146).  The `assert stream == False`
on line 143 runs after the prompt is built but before any collaborator
call. -/
def llama2_functary_chat_completion_handler {α : Type}
    (create_completion : String → Completion) (messages : List Message)
    (tools : Option (List Tool)) (params : α) (stream : Bool)
    (stop : List String) : Except PyError ChatResponse × List (CallArgs α) :=
  match compile_prompt messages tools with
  | .error e => (.error e, [])
  | .ok prompt =>
    if stream then (.error (.assertionError "streaming is not supported yet"), [])
    else
      let completion := create_completion prompt
      (build_response completion,
       [{ prompt := prompt, stop := ["user:", "</s>"], stream := false, params := params }])

/-!
## Auxiliary definitions for the specification checks
-/

/-- Key list of a decoded JSON object (empty for non-objects). -/
def jsonObjKeys : Json → List String
  | .obj ms => ms.map fun m => m.1
  | _ => []

/-- The four chat roles recognized by `_format_messages`. -/
def recognizedRole (role : String) : Bool :=
  role == "user" || role == "function" || role == "system" || role == "assistant"

/-- Whether an embedded Python computation completed without raising. -/
def exceptIsOk {ε β : Type} : Except ε β → Bool
  | .ok _ => true
  | .error _ => false

/-- Whether a compilation result is an aborted run carrying a
`ValueError`. -/
def resultIsValueError : Except PyError String → Bool
  | .error (.valueError _) => true
  | _ => false

/-- Inference result whose raw text is valid JSON of the wrong shape
(`{"foo":"bar"}` has no `function`/`arguments` members). -/
def c1Completion : Completion :=
  { id := "cmpl-1", created := 0, model := "m",
    choices := [{ text := "\x7b\"foo\":\"bar\"\x7d" }],
    usage := { prompt_tokens := 1, completion_tokens := 1, total_tokens := 2 } }

/-- A turn sequence with exactly one `user` turn, no `system` or
`assistant` turns — but also a `function` turn. -/
def c3CexMsgs : List Message :=
  [{ role := "user", content := some "hi" }, { role := "function", content := some "ok" }]

/-- Inference result whose raw text is a well-shaped function call. -/
def c5Completion : Completion :=
  { id := "cmpl-5", created := 5, model := "m5",
    choices := [{ text := "\x7b\"function\":\"weather\",\"arguments\":\x7b\"location\":\"Tokyo\"\x7d\x7d" }],
    usage := { prompt_tokens := 3, completion_tokens := 4, total_tokens := 7 } }

/-- Inference result with plain (non-JSON) text. -/
def c6Completion : Completion :=
  { id := "-x", created := 9, model := "m6",
    choices := [{ text := "The weather is nice." }],
    usage := { prompt_tokens := 2, completion_tokens := 3, total_tokens := 5 } }

/-- The assistant message assembled from `c6Completion`. -/
def c6Msg : AssistantMessage :=
  { role := "assistant", content := some "The weather is nice.",
    tool_calls := none, function_call := none }

/-- A turn sequence with an unrecognized role that is preceded by an
assistant turn whose function-call arguments are not valid JSON. -/
def c8CexMsgs : List Message :=
  [{ role := "assistant", content := none,
     function_call := some { name := "f", arguments := "not json" } },
   { role := "wat", content := some "x" }]

/-- A well-formed user turn preceding the unknown-role turn in the C8
witness. -/
def c8UserMsg : Message := { role := "user", content := some "hi" }

/-- A turn whose role is outside the four recognized values. -/
def c8BadRoleMsg : Message := { role := "wat", content := some "x" }

/-!
## Helper lemmas
-/

/-- String concatenation is associative (down to the character list). -/
theorem str_append_assoc (a b c : String) : a ++ b ++ c = a ++ (b ++ c) :=
  congrArg String.mk (List.append_assoc a.data b.data c.data)

/-- Joining a two-element list with `"\n"`. -/
theorem intercalate_pair (x y : String) : String.intercalate "\n" [x, y] = x ++ "\n" ++ y := rfl

/-- If every turn before the first unrecognized-role turn is recognized
and formats without raising, the compilation loop reaches that turn and
raises `ValueError(f"Unknown role: ...")`, from any accumulator state. -/
theorem format_loop_unknown_role (bad : Message) (rest : List Message)
    (hbad : recognizedRole bad.role = false) :
    ∀ (good : List Message) (st : ConvState) (lines : List String),
      (∀ m ∈ good, recognizedRole m.role = true ∧ exceptIsOk (format_message_content m) = true) →
      format_loop st lines (good ++ bad :: rest) =
        .error (.valueError ("Unknown role: " ++ bad.role)) := by
  intro good
  induction good with
  | nil =>
    intro st lines _
    simp only [recognizedRole, Bool.or_eq_false_iff, beq_eq_false_iff_ne, ne_eq] at hbad
    obtain ⟨⟨⟨h1, h2⟩, h3⟩, h4⟩ := hbad
    simp [format_loop, h1, h2, h3, h4]
  | cons m good ih =>
    intro st lines h
    obtain ⟨hrole, hok⟩ := h m (by simp)
    have hgood := fun m' hm' => h m' (List.mem_cons_of_mem _ hm')
    obtain ⟨c, hc⟩ : ∃ c, format_message_content m = .ok c := by
      cases hfmt : format_message_content m with
      | error e => rw [hfmt] at hok; simp [exceptIsOk] at hok
      | ok c => exact ⟨c, rfl⟩
    simp [recognizedRole] at hrole
    rcases hrole with ((h1 | h1) | h1) | h1 <;>
      simp [format_loop, h1, hc] <;> exact ih _ _ hgood

/-!
## Claim theorems
-/

/-- C1: the claim says a decode success without the function-call shape
yields `PlainMessage` with the raw text and that no exception escapes the
parse; the code instead subscripts the decoded value after catching only
`JSONDecodeError`, so on `{"foo":"bar"}` — valid JSON of the wrong
shape — `_parse_tool_calls` raises an uncaught `KeyError("function")`. -/
theorem c1_wrong_shape_raises_key_error :
    loads "\x7b\"foo\":\"bar\"\x7d" = some (.obj [("foo", .str "bar")]) ∧
    parse_tool_calls c1Completion = .error (.keyError "function") :=
  ⟨rfl, rfl⟩

/-- C2: for the turn sequence `[system, user, assistant, user]` (plain
string contents), compilation emits exactly two flushed blocks joined by
one newline: the first rendering the system, user and assistant slots as
one block, the second rendering the final lone user turn as
`[INST] {user2} [/INST]`; the flush before the second user turn reset all
slots and one final flush ran after the last turn. -/
theorem c2_system_user_assistant_user_two_blocks (s u a v : String) :
    format_loop reset_state []
        [{ role := "system", content := some s }, { role := "user", content := some u },
         { role := "assistant", content := some a }, { role := "user", content := some v }] =
      .ok ["<s>[INST] <<SYS>>\n" ++ s ++ "\n<</SYS>>\n\n" ++ u ++ " [/INST] " ++ a ++ "</s>",
           "[INST] " ++ v ++ " [/INST]"] ∧
    format_messages
        [{ role := "system", content := some s }, { role := "user", content := some u },
         { role := "assistant", content := some a }, { role := "user", content := some v }] =
      .ok ("<s>[INST] <<SYS>>\n" ++ s ++ "\n<</SYS>>\n\n" ++ u ++ " [/INST] " ++ a ++ "</s>" ++
           "\n" ++ "[INST] " ++ v ++ " [/INST]") := by
  have h1 : format_loop reset_state []
      [{ role := "system", content := some s }, { role := "user", content := some u },
       { role := "assistant", content := some a }, { role := "user", content := some v }] =
      .ok ["<s>[INST] <<SYS>>\n" ++ s ++ "\n<</SYS>>\n\n" ++ u ++ " [/INST] " ++ a ++ "</s>",
           "[INST] " ++ v ++ " [/INST]"] := by
    simp [format_loop, format_message_content, push_state, renderBlock, reset_state,
      ConvState.get, ConvState.set, str_append_assoc]
    rfl
  refine ⟨h1, ?_⟩
  simp [format_messages, h1, Except.map, intercalate_pair, str_append_assoc]
  rfl

/-- C3 (counterexample): `[user, function]` contains exactly one user
turn and no system/assistant turns, yet compiling it with an empty tools
list yields two blocks, not `[INST] hi [/INST]`: the claim as stated is
false. -/
theorem c3_counterexample_function_turn :
    ((c3CexMsgs.filter fun m => m.role == "user").length = 1) ∧
    ((c3CexMsgs.filter fun m => m.role == "system").length = 0) ∧
    ((c3CexMsgs.filter fun m => m.role == "assistant").length = 0) ∧
    compile_prompt c3CexMsgs (some []) =
      .ok ("[INST] hi [/INST]\n[INST] Here is the response to that function call:\n\n\"ok\" [/INST]") ∧
    ("[INST] hi [/INST]\n[INST] Here is the response to that function call:\n\n\"ok\" [/INST]" ≠
      "[INST] hi [/INST]") :=
  ⟨by decide, by decide, by decide, rfl, by decide⟩

/-- C3 (amended): for every turn sequence consisting of exactly one
turn — a user turn with string content — compiling with an empty tools
list returns exactly `"[INST] {content} [/INST]"` with no leading tool
header. -/
theorem c3_single_user_turn_exact_prompt (c : String) :
    compile_prompt [{ role := "user", content := some c }] (some []) =
      .ok ("[INST] " ++ c ++ " [/INST]") := by
  simp [compile_prompt, format_messages, format_loop, format_message_content, push_state,
    renderBlock, reset_state, ConvState.get, ConvState.set, format_tools, Except.map]
  rfl

/-- C4: for a non-empty tools list the header is `<FUNCTIONS>` followed
by the 4-space-indented JSON array of per-tool projections
`{function, description, arguments: [{name, type} in declaration order]}`
followed by `</FUNCTIONS>\n\n`; each projected object carries exactly
those three keys (so no `required` field is encoded); an empty or absent
tools list yields the empty string. -/
theorem c4_tools_header_wire_format (ts : List Tool) :
    format_tools none = "" ∧ format_tools (some []) = "" ∧
    format_tools (some ts) =
      (if ts.length = 0 then ""
       else "<FUNCTIONS>" ++ dumpJsonIndent 4 0 (.arr (ts.map trelisTool)) ++
         "</FUNCTIONS>\n\n") ∧
    ((ts.map trelisTool).all fun j =>
      jsonObjKeys j == ["function", "description", "arguments"]) = true ∧
    ((ts.map trelisTool).all fun j => !((jsonObjKeys j).contains "required")) = true := by
  refine ⟨rfl, rfl, rfl, ?_, ?_⟩ <;>
    simp [List.all_eq_true, jsonObjKeys, trelisTool]

/-- C5: whenever the raw completion text decodes to the function-call
shape `{function: string, arguments: object}`, the assembled assistant
message has `content = None` and a tool-call list of exactly one entry
whose id equals the function name, whose type is `"function"` and whose
function member is `{name, arguments: json.dumps(arguments, indent=2)}`,
mirrored into the legacy `function_call` field. -/
theorem c5_function_call_message_assembly (completion : Completion)
    (choice : CompletionChoice) (rest : List CompletionChoice)
    (ms : List (String × Json)) (fname : String) (args : List (String × Json))
    (hc : completion.choices = choice :: rest)
    (hl : loads choice.text = some (.obj ms))
    (hf : lookupDict ms "function" = some (.str fname))
    (ha : lookupDict ms "arguments" = some (.obj args)) :
    build_message completion = .ok
      { role := "assistant", content := none,
        tool_calls := some [{ id := .str fname, type := "function",
                              function := { name := .str fname,
                                            arguments := dumpJsonIndent 2 0 (.obj args) } }],
        function_call := some { name := .str fname,
                                arguments := dumpJsonIndent 2 0 (.obj args) } } := by
  simp [build_message, parse_tool_calls, hc, hl, hf, ha]

/-- Witness for C5 at the concrete completion text
`{"function":"weather","arguments":{"location":"Tokyo"}}`. -/
theorem c5_function_call_message_assembly_witness :
    build_message c5Completion = .ok
      { role := "assistant", content := none,
        tool_calls := some [{ id := .str "weather", type := "function",
                              function := { name := .str "weather",
                                            arguments := dumpJsonIndent 2 0
                                              (.obj [("location", .str "Tokyo")]) } }],
        function_call := some { name := .str "weather",
                                arguments := dumpJsonIndent 2 0
                                  (.obj [("location", .str "Tokyo")]) } } :=
  c5_function_call_message_assembly c5Completion
    { text := "\x7b\"function\":\"weather\",\"arguments\":\x7b\"location\":\"Tokyo\"\x7d\x7d" } []
    [("function", .str "weather"), ("arguments", .obj [("location", .str "Tokyo")])]
    "weather" [("location", .str "Tokyo")] rfl rfl rfl rfl

/-- C6: whenever message assembly succeeds, the response envelope has
id `"chat" + raw.id`, object tag `"chat.completion"`, the inference
result's `created` and `model` copied unchanged, exactly one choice with
`finish_reason = "stop"`, and the usage statistics passed through. -/
theorem c6_response_envelope (completion : Completion) (msg : AssistantMessage)
    (h : build_message completion = .ok msg) :
    build_response completion = .ok
      { id := "chat" ++ completion.id, object := "chat.completion",
        created := completion.created, model := completion.model,
        choices := [{ index := 0, message := msg, finish_reason := "stop" }],
        usage := completion.usage } := by
  simp [build_response, h, Except.map]

/-- Witness for C6 at a concrete plain-text completion. -/
theorem c6_response_envelope_witness :
    build_response c6Completion = .ok
      { id := "chat" ++ c6Completion.id, object := "chat.completion",
        created := c6Completion.created, model := c6Completion.model,
        choices := [{ index := 0, message := c6Msg, finish_reason := "stop" }],
        usage := c6Completion.usage } :=
  c6_response_envelope c6Completion c6Msg rfl

/-- C7: with `stream = true` the handler fails (the `assert` guard or an
earlier compilation error) and the inference collaborator receives zero
calls. -/
theorem c7_stream_rejected_before_inference {α : Type} (cc : String → Completion)
    (messages : List Message) (tools : Option (List Tool)) (params : α)
    (stop : List String) :
    (llama2_functary_chat_completion_handler cc messages tools params true stop).2 = [] ∧
    exceptIsOk (llama2_functary_chat_completion_handler cc messages tools params true stop).1 =
      false := by
  cases h : compile_prompt messages tools <;>
    simp [llama2_functary_chat_completion_handler, h, exceptIsOk]

/-- C8 (counterexample): a sequence containing an unrecognized role can
abort with `JSONDecodeError` instead of `ValueError` when an earlier
assistant turn's function-call arguments fail to decode: the claim as
stated is false. -/
theorem c8_counterexample_decode_error_preempts :
    (c8CexMsgs.any fun m => !(recognizedRole m.role)) = true ∧
    format_messages c8CexMsgs = .error .jsonDecodeError ∧
    resultIsValueError (format_messages c8CexMsgs) = false :=
  ⟨by decide, rfl, by decide⟩

/-- C8 (amended): for every turn sequence containing an unrecognized-role
turn, provided every turn before that turn is recognized and formats
without raising, compilation aborts with
`ValueError(f"Unknown role: ...")` and no partial prompt is returned. -/
theorem c8_unknown_role_value_error (good : List Message) (bad : Message)
    (rest : List Message)
    (hgood : ∀ m ∈ good,
      recognizedRole m.role = true ∧ exceptIsOk (format_message_content m) = true)
    (hbad : recognizedRole bad.role = false) :
    format_messages (good ++ bad :: rest) =
      .error (.valueError ("Unknown role: " ++ bad.role)) := by
  unfold format_messages
  rw [format_loop_unknown_role bad rest hbad good _ _ hgood]
  rfl

/-- Witness for C8 at `[user, unknown-role]`. -/
theorem c8_unknown_role_value_error_witness :
    format_messages [c8UserMsg, c8BadRoleMsg] = .error (.valueError "Unknown role: wat") :=
  c8_unknown_role_value_error [c8UserMsg] c8BadRoleMsg [] (by decide) (by decide)

/-- C10: the handler's result is independent of the caller-supplied
`stop` argument, and every call it issues to the inference collaborator
carries exactly the stop sequences `["user:", "</s>"]`. -/
theorem c10_stop_argument_ignored {α : Type} (cc : String → Completion)
    (messages : List Message) (tools : Option (List Tool)) (params : α)
    (stream : Bool) (stop1 stop2 : List String) :
    llama2_functary_chat_completion_handler cc messages tools params stream stop1 =
      llama2_functary_chat_completion_handler cc messages tools params stream stop2 ∧
    ((llama2_functary_chat_completion_handler cc messages tools params stream stop1).2.all
        fun c => c.stop == ["user:", "</s>"]) = true := by
  refine ⟨rfl, ?_⟩
  cases h : compile_prompt messages tools <;>
    cases stream <;> simp [llama2_functary_chat_completion_handler, h]
